import Mathlib

/-!
Verification development for the quote-normalizer core of a stock dashboard
(`src/app.py`).  The Python source is shallowly embedded: each helper below
models one Python string primitive used by `get_stock_data`, and the main
pipeline is reproduced as a pure function whose network effect is an explicit
input and whose emitted requests/warnings are an explicit output trace.
Prices are modelled as rationals.
-/

namespace StockView

/-- Test whether the char list in the second argument starts with the
pattern in the first (the model of Python `str.startswith` at the character
level). -/
def chars_begin : List Char → List Char → Bool
  | [], _ => true
  | _ :: _, [] => false
  | p :: ps, c :: cs => p == c && chars_begin ps cs

/-- Test whether the pattern occurs as a contiguous substring of the second
argument (the model of the Python `in` operator on strings). -/
def has_sub (pat : List Char) : List Char → Bool
  | [] => pat.isEmpty
  | c :: cs => chars_begin pat (c :: cs) || has_sub pat cs

/-- Model of Python `pat in s` for strings. -/
def contains_str (s pat : String) : Bool :=
  has_sub pat.toList s.toList

/-- Model of Python `s.startswith(pre)`. -/
def py_startswith (s pre : String) : Bool :=
  chars_begin pre.toList s.toList

/-- Splitter for Python `s.split(sep)` with non-empty separator
`s0 :: srest`.  The numeric argument counts separator characters still to be
consumed after a match, keeping the recursion structural on the char list. -/
def split_go (s0 : Char) (srest : List Char) : List Char → Nat → List (List Char)
  | [], _ => [[]]
  | _ :: cs, skip + 1 => split_go s0 srest cs skip
  | c :: cs, 0 =>
    if chars_begin (s0 :: srest) (c :: cs) then
      [] :: split_go s0 srest cs srest.length
    else
      match split_go s0 srest cs 0 with
      | [] => [[c]]
      | g :: gs => (c :: g) :: gs

/-- Model of Python `s.split(sep)` for a non-empty separator (the only way
the source calls it). -/
def py_split (sep s : String) : List String :=
  match sep.toList with
  | [] => [s]
  | c :: cs => (split_go c cs s.toList 0).map fun l => String.mk l

/-- Replacement engine for Python `s.replace(pat, rep)` with non-empty `pat`
given as `p0 :: prest`; same skip-counter technique as `split_go`. -/
def replace_go (p0 : Char) (prest rep : List Char) : List Char → Nat → List Char
  | [], _ => []
  | _ :: cs, skip + 1 => replace_go p0 prest rep cs skip
  | c :: cs, 0 =>
    if chars_begin (p0 :: prest) (c :: cs) then
      rep ++ replace_go p0 prest rep cs prest.length
    else
      c :: replace_go p0 prest rep cs 0

/-- Model of Python `s.replace(pat, rep)` for a non-empty pattern (the only
way the source calls it). -/
def py_replace (s pat rep : String) : String :=
  match pat.toList with
  | [] => s
  | c :: cs => String.mk (replace_go c cs rep.toList s.toList 0)

/-- Model of Python `s.strip()`: drop whitespace from both ends. -/
def py_strip (s : String) : String :=
  String.mk
    (((s.toList.dropWhile Char.isWhitespace).reverse.dropWhile
        Char.isWhitespace).reverse)

/-- Model of Python `s.strip('"')`: drop double quotes from both ends. -/
def py_strip_quotes (s : String) : String :=
  String.mk
    (((s.toList.dropWhile fun c => c == '"').reverse.dropWhile
        fun c => c == '"').reverse)

/-- Numeric value of a digit string. -/
def digits_val (cs : List Char) : Nat :=
  cs.foldl (fun a c => a * 10 + (c.toNat - 48)) 0

/-- Syntactic shape of a plain decimal numeral accepted by Python `float`
on this feed: optional sign, integer digits, optional fractional digits. -/
structure DecNum where
  neg : Bool
  ip : List Char
  fp : List Char
deriving DecidableEq, Repr

/-- Lexing half of the Python `float(s)` model: strip whitespace, accept an
optional sign and digits with at most one decimal point (at least one digit
overall), and reject everything else, as `float` does by raising
`ValueError`.  Exponents and `inf`/`nan` are outside the feed's format and
not modelled. -/
def parse_dec (s : String) : Option DecNum :=
  let cs := (py_strip s).toList
  let neg := cs.headD ' ' == '-'
  let cs2 := if cs.headD ' ' == '-' || cs.headD ' ' == '+' then cs.tail else cs
  let ip := cs2.takeWhile Char.isDigit
  let rest := cs2.dropWhile Char.isDigit
  if rest.isEmpty then
    if ip.isEmpty then none else some ⟨neg, ip, []⟩
  else if rest.headD ' ' == '.' && rest.tail.all Char.isDigit
      && !(ip.isEmpty && rest.tail.isEmpty) then
    some ⟨neg, ip, rest.tail⟩
  else
    none

/-- Numeric value of a lexed decimal numeral. -/
def dec_val (d : DecNum) : ℚ :=
  (if d.neg then (-1 : ℚ) else 1) *
    ((digits_val d.ip : ℚ) + (digits_val d.fp : ℚ) / (10 : ℚ) ^ d.fp.length)

/-- Model of Python `float(s)` on the decimal numerals the quote feed
carries; `none` models the `ValueError` that the source's `except` catches. -/
def py_float (s : String) : Option ℚ :=
  (parse_dec s).map dec_val

/-- One normalized quote row, with the fields the source appends to
`data_list` (`代码`, `名称`, `当前价`, `涨跌额`, `涨跌幅(%)`, `开盘价`,
`最高价`, `最低价`, `昨收价`, `更新时间`). -/
structure QuoteRecord where
  code : String
  name : String
  current : ℚ
  change_amt : ℚ
  change_pct : ℚ
  open_price : ℚ
  high_price : ℚ
  low_price : ℚ
  pre_close : ℚ
  update_time : String
deriving DecidableEq, Repr

/-- Model of Python `code_map.get(k, default)` without the default: a dict
built by repeated assignment, where the last write to a key wins. -/
def dictGet (m : List (String × String)) (k : String) : Option String :=
  ((m.filter fun p => p.1 == k).getLast?).map Prod.snd

/-- Prefix resolution for one already-stripped, non-empty code
(src/app.py lines 40-51): explicit `sh`/`sz`/`bj`/`rt_hk` prefixes pass
through; otherwise the first character picks the prefix, defaulting to
`sh`.  (The `[]` case is unreachable at the call site, which skips empty
codes first.) -/
def resolve_code (code : String) : String :=
  if py_startswith code "sh" || py_startswith code "sz" || py_startswith code "bj"
      || py_startswith code "rt_hk" then
    code
  else
    match code.toList with
    | [] => "sh" ++ code
    | c :: _ =>
      if c = '5' ∨ c = '6' ∨ c = '9' then "sh" ++ code
      else if c = '0' ∨ c = '1' ∨ c = '2' ∨ c = '3' then "sz" ++ code
      else if c = '4' ∨ c = '8' then "bj" ++ code
      else "sh" ++ code

/-- The loop of src/app.py lines 35-54: strip each input code, skip empty
ones, resolve its prefix, accumulate the API request list and the
resolved-to-original map. -/
def build_codes (codes : List String) : List String × List (String × String) :=
  codes.foldl
    (fun acc code =>
      let code := py_strip code
      if code = "" then acc
      else
        let final_code := resolve_code code
        (acc.1 ++ [final_code], acc.2 ++ [(final_code, code)]))
    ([], [])

/-- The unified change computation of src/app.py lines 124-133, returning
`(change_pct, change_amt, current_price)` where the third component is the
possibly substituted displayed price. -/
def calc_change (pre_close current_price : ℚ) : ℚ × ℚ × ℚ :=
  if 0 < pre_close ∧ 0 < current_price then
    (((current_price - pre_close) / pre_close) * 100, current_price - pre_close,
      current_price)
  else if 0 < pre_close ∧ current_price = 0 then
    (0, 0, pre_close)
  else
    (0, 0, current_price)

/-- Code recovery and relabeling of src/app.py lines 136-139: look the API
key up in the reverse map, fall back to stripping `sh`/`sz`, and relabel any
recovered code containing `HSTECH` to `HK.Tech`. -/
def recover_code (code_map : List (String × String)) (raw_key : String) : String :=
  let original_code :=
    (dictGet code_map raw_key).getD (py_replace (py_replace raw_key "sh" "") "sz" "")
  if contains_str original_code "HSTECH" then "HK.Tech" else original_code

/-- The mainland (A-share) branch of src/app.py lines 111-121, on the
comma-split fields: require at least 6 fields, read
`[name, open, prev_close, current, high, low, ...]`, and take the update
time from field 31, or field 30 when index 31 is out of range — where
indexing past the end raises (modelled by `none`, caught by the caller's
blanket `except`).  Returns
`(name, open, pre_close, current, high, low, update_time)`. -/
def parse_a_share_fields (fields : List String) :
    Option (String × ℚ × ℚ × ℚ × ℚ × ℚ × String) :=
  if fields.length < 6 then none
  else
    (py_float (fields.getD 1 "")).bind fun open_price =>
    (py_float (fields.getD 2 "")).bind fun pre_close =>
    (py_float (fields.getD 3 "")).bind fun current_price =>
    (py_float (fields.getD 4 "")).bind fun high_price =>
    (py_float (fields.getD 5 "")).bind fun low_price =>
    if 31 < fields.length then
      some (fields.getD 0 "", open_price, pre_close, current_price, high_price,
        low_price, fields.getD 31 "")
    else if 30 < fields.length then
      some (fields.getD 0 "", open_price, pre_close, current_price, high_price,
        low_price, fields.getD 30 "")
    else
      none

/-- The Hong-Kong branch of src/app.py lines 99-109, on the comma-split
fields: require at least 7 fields, read
`[?, name, open, prev_close, high, low, current, ...]`, and take the update
time from field 18, or the current wall-clock string `now` when index 18 is
out of range.  Returns the same tuple shape as the mainland branch. -/
def parse_hk_fields (now : String) (fields : List String) :
    Option (String × ℚ × ℚ × ℚ × ℚ × ℚ × String) :=
  if fields.length < 7 then none
  else
    (py_float (fields.getD 2 "")).bind fun open_price =>
    (py_float (fields.getD 3 "")).bind fun pre_close =>
    (py_float (fields.getD 4 "")).bind fun high_price =>
    (py_float (fields.getD 5 "")).bind fun low_price =>
    (py_float (fields.getD 6 "")).bind fun current_price =>
    some (fields.getD 1 "", open_price, pre_close, current_price, high_price,
      low_price, if 18 < fields.length then fields.getD 18 "" else now)

/-- One iteration of the parsing loop of src/app.py lines 71-154 on a single
line.  `none` models both the explicit `continue`s and any caught exception;
`now` is the wall-clock string `datetime.now().strftime("%H:%M:%S")`. -/
def parse_line (code_map : List (String × String)) (now : String)
    (line : String) : Option QuoteRecord :=
  if py_strip line = "" then none
  else
    let eq_split := py_split "=" line
    if eq_split.length < 2 then none
    else
      let key0 := eq_split.getD 0 ""
      let raw_key :=
        if contains_str key0 "rt_hk" then
          "rt_" ++ (py_split "_rt_" key0).getLastD ""
        else
          (py_split "_" key0).getLastD ""
      let content := py_strip_quotes (eq_split.getD 1 "")
      if content = "" then none
      else
        let fields := py_split "," content
        let parsed :=
          if contains_str line "rt_hk" then parse_hk_fields now fields
          else parse_a_share_fields fields
        parsed.map fun r =>
          let c := calc_change r.2.2.1 r.2.2.2.1
          { code := recover_code code_map raw_key
            name := r.1
            current := c.2.2
            change_amt := c.2.1
            change_pct := c.1
            open_price := r.2.1
            high_price := r.2.2.2.2.1
            low_price := r.2.2.2.2.2.1
            pre_close := r.2.2.1
            update_time := r.2.2.2.2.2.2 }

/-- The whole parsing loop: per-line results collected, dropped lines
skipped. -/
def parse_lines (code_map : List (String × String)) (now : String)
    (lines : List String) : List QuoteRecord :=
  lines.filterMap (parse_line code_map now)

/-- Outcome of the single `requests.get` call as the source can observe it:
either the call raised (timeout, connection failure — `requests` raises no
exception for a non-2xx status, and the source never calls
`raise_for_status`), or a response arrived carrying an HTTP status — which
the source never inspects — and either the GBK-decoded body or a decode
failure. -/
inductive FetchOutcome where
  | exc (msg : String)
  | resp (status : Nat) (decoded : Except String String)

/-- Observable result of one `get_stock_data` call: the URLs requested (the
network-call trace), the warnings shown via `st.error`, and the parsed
rows. -/
structure RunResult where
  urls : List String
  warnings : List String
  records : List QuoteRecord

/-- The full `get_stock_data` of src/app.py lines 27-156, with the network
effect passed in as `fetch` and `datetime.now()` as `now`. -/
def get_stock_data (codes : List String) (fetch : FetchOutcome) (now : String) :
    RunResult :=
  if codes.isEmpty then ⟨[], [], []⟩
  else
    let built := build_codes codes
    let url := "http://hq.sinajs.cn/list=" ++ String.intercalate "," built.1
    match fetch with
    | .exc e => ⟨[url], ["网络请求失败: " ++ e], []⟩
    | .resp _ (.error e) => ⟨[url], ["网络请求失败: " ++ e], []⟩
    | .resp _ (.ok text) =>
      ⟨[url], [], parse_lines built.2 now (py_split "\n" text)⟩

/-- The add action of the watchlist sidebar (src/app.py lines 210-217):
append the new code only when it is non-empty, exactly 6 characters long,
and not already present. -/
def add_code (wl : List String) (new_code : String) : List String :=
  if new_code ≠ "" ∧ new_code.length = 6 then
    if new_code ∉ wl then wl ++ [new_code] else wl
  else
    wl

/-- The remove action of the watchlist sidebar (src/app.py lines 221-224):
for each selected code, remove its first occurrence if present. -/
def remove_codes (wl : List String) (to_remove : List String) : List String :=
  to_remove.foldl (fun acc c => if c ∈ acc then acc.erase c else acc) wl

/-- One user action on the watchlist. -/
inductive WatchOp where
  | add (c : String)
  | remove (cs : List String)

/-- Apply one watchlist action. -/
def apply_watch_op (wl : List String) : WatchOp → List String
  | .add c => add_code wl c
  | .remove cs => remove_codes wl cs

/-- Apply a sequence of watchlist actions, as the session does over its
lifetime (the initial state in the source is `[]`). -/
def apply_watch_ops (wl : List String) (ops : List WatchOp) : List String :=
  ops.foldl apply_watch_op wl

/-! ## Helper lemmas -/

theorem py_float_parse_dec {s : String} {d : DecNum} (h : parse_dec s = some d) :
    py_float s = some (dec_val d) := by
  simp [py_float, h]

theorem parse_a_share_fields_eq (fields : List String) (o p cur hi lo : ℚ)
    (hlen : 31 ≤ fields.length)
    (h1 : py_float (fields.getD 1 "") = some o)
    (h2 : py_float (fields.getD 2 "") = some p)
    (h3 : py_float (fields.getD 3 "") = some cur)
    (h4 : py_float (fields.getD 4 "") = some hi)
    (h5 : py_float (fields.getD 5 "") = some lo) :
    parse_a_share_fields fields =
      some (fields.getD 0 "", o, p, cur, hi, lo,
        if 31 < fields.length then fields.getD 31 "" else fields.getD 30 "") := by
  unfold parse_a_share_fields
  rw [if_neg (show ¬ fields.length < 6 by omega), h1, h2, h3, h4, h5]
  simp only [Option.some_bind']
  by_cases h31 : 31 < fields.length
  · simp only [if_pos h31]
  · simp only [if_neg h31, if_pos (show 30 < fields.length by omega)]

theorem parse_hk_fields_eq (now : String) (fields : List String)
    (o p hi lo cur : ℚ)
    (hlen : 7 ≤ fields.length)
    (h2 : py_float (fields.getD 2 "") = some o)
    (h3 : py_float (fields.getD 3 "") = some p)
    (h4 : py_float (fields.getD 4 "") = some hi)
    (h5 : py_float (fields.getD 5 "") = some lo)
    (h6 : py_float (fields.getD 6 "") = some cur) :
    parse_hk_fields now fields =
      some (fields.getD 1 "", o, p, cur, hi, lo,
        if 18 < fields.length then fields.getD 18 "" else now) := by
  unfold parse_hk_fields
  rw [if_neg (show ¬ fields.length < 7 by omega), h2, h3, h4, h5, h6]
  simp only [Option.some_bind']

theorem parse_line_eq (cm : List (String × String)) (now line : String)
    (name : String) (o p cur hi lo : ℚ) (t : String)
    (h1 : py_strip line ≠ "")
    (h2 : ¬ (py_split "=" line).length < 2)
    (h3 : py_strip_quotes ((py_split "=" line).getD 1 "") ≠ "")
    (h4 : (if contains_str line "rt_hk" then
            parse_hk_fields now
              (py_split "," (py_strip_quotes ((py_split "=" line).getD 1 "")))
          else
            parse_a_share_fields
              (py_split "," (py_strip_quotes ((py_split "=" line).getD 1 "")))) =
          some (name, o, p, cur, hi, lo, t)) :
    parse_line cm now line =
      some
        { code := recover_code cm
            (if contains_str ((py_split "=" line).getD 0 "") "rt_hk" then
              "rt_" ++ (py_split "_rt_" ((py_split "=" line).getD 0 "")).getLastD ""
            else
              (py_split "_" ((py_split "=" line).getD 0 "")).getLastD "")
          name := name
          current := (calc_change p cur).2.2
          change_amt := (calc_change p cur).2.1
          change_pct := (calc_change p cur).1
          open_price := o
          high_price := hi
          low_price := lo
          pre_close := p
          update_time := t } := by
  unfold parse_line
  rw [if_neg h1, if_neg h2, if_neg h3]
  dsimp only
  rw [h4]
  rfl

end StockView

namespace StockView

/-! ## Claim theorems -/

/-- C1: the derived-metrics calculator follows the three-way policy exactly:
with positive previous close and positive current price the change amount is
`current - previous_close` and the change percent is that over the previous
close times 100; with positive previous close and zero current price the
displayed price becomes the previous close with zero change; otherwise the
change is zero and the current price is left as given.  In particular
`(100, 110)` gives change 10 and 10 percent, `(100, 0)` displays 100 with
zero change, and `(0, 50)` gives zero change. -/
theorem c1_change_policy (p c : ℚ) :
    (0 < p → 0 < c → calc_change p c = (((c - p) / p) * 100, c - p, c)) ∧
    (0 < p → c = 0 → calc_change p c = (0, 0, p)) ∧
    (¬ (0 < p ∧ 0 < c) → ¬ (0 < p ∧ c = 0) → calc_change p c = (0, 0, c)) ∧
    calc_change 100 110 = (10, 10, 110) ∧
    calc_change 100 0 = (0, 0, 100) ∧
    calc_change 0 50 = (0, 0, 50) := by
  refine ⟨?_, ?_, ?_, ?_, ?_, ?_⟩
  · intro hp hc
    rw [calc_change, if_pos ⟨hp, hc⟩]
  · intro hp hc
    rw [calc_change, if_neg (by simp [hc]), if_pos ⟨hp, hc⟩]
  · intro hA hB
    rw [calc_change, if_neg hA, if_neg hB]
  · rw [calc_change, if_pos ⟨by norm_num, by norm_num⟩]
    norm_num
  · rw [calc_change, if_neg (by norm_num), if_pos ⟨by norm_num, rfl⟩]
  · rw [calc_change, if_neg (by norm_num), if_neg (by norm_num)]

/-- Witness for C1 at the spec's concrete inputs. -/
theorem c1_change_policy_witness :
    calc_change 100 110 = ((((110 : ℚ) - 100) / 100) * 100, (110 : ℚ) - 100, 110) ∧
    calc_change 100 0 = (0, 0, 100) ∧
    calc_change 0 50 = (0, 0, 50) :=
  ⟨(c1_change_policy 100 110).1 (by norm_num) (by norm_num),
   (c1_change_policy 100 0).2.1 (by norm_num) rfl,
   (c1_change_policy 0 50).2.2.1 (by norm_num) (by norm_num)⟩

/-- C2: for a non-empty bare code (no recognized market prefix) the prefix
resolver decides purely from the first character: `5`/`6`/`9` give `sh`,
`0`/`1`/`2`/`3` give `sz`, `4`/`8` give `bj`, and anything else defaults to
`sh`; being a total function, it raises no error on unrecognized leading
characters. -/
theorem c2_prefix_resolution (c : Char) (rest : List Char)
    (h1 : py_startswith (String.mk (c :: rest)) "sh" = false)
    (h2 : py_startswith (String.mk (c :: rest)) "sz" = false)
    (h3 : py_startswith (String.mk (c :: rest)) "bj" = false)
    (h4 : py_startswith (String.mk (c :: rest)) "rt_hk" = false) :
    (c = '5' ∨ c = '6' ∨ c = '9' →
      resolve_code (String.mk (c :: rest)) = "sh" ++ String.mk (c :: rest)) ∧
    (c = '0' ∨ c = '1' ∨ c = '2' ∨ c = '3' →
      resolve_code (String.mk (c :: rest)) = "sz" ++ String.mk (c :: rest)) ∧
    (c = '4' ∨ c = '8' →
      resolve_code (String.mk (c :: rest)) = "bj" ++ String.mk (c :: rest)) ∧
    (c ≠ '5' → c ≠ '6' → c ≠ '9' → c ≠ '0' → c ≠ '1' → c ≠ '2' → c ≠ '3' →
      c ≠ '4' → c ≠ '8' →
      resolve_code (String.mk (c :: rest)) = "sh" ++ String.mk (c :: rest)) := by
  have hred : resolve_code (String.mk (c :: rest)) =
      (if c = '5' ∨ c = '6' ∨ c = '9' then "sh" ++ String.mk (c :: rest)
       else if c = '0' ∨ c = '1' ∨ c = '2' ∨ c = '3' then "sz" ++ String.mk (c :: rest)
       else if c = '4' ∨ c = '8' then "bj" ++ String.mk (c :: rest)
       else "sh" ++ String.mk (c :: rest)) := by
    rw [resolve_code, if_neg (by simp [h1, h2, h3, h4])]
    rfl
  refine ⟨?_, ?_, ?_, ?_⟩
  · intro hd
    rw [hred, if_pos hd]
  · intro hd
    rw [hred, if_neg (by rcases hd with h | h | h | h <;> simp [h]), if_pos hd]
  · intro hd
    rw [hred, if_neg (by rcases hd with h | h <;> simp [h]),
      if_neg (by rcases hd with h | h <;> simp [h]), if_pos hd]
  · intro n5 n6 n9 n0 n1 n2 n3 n4 n8
    rw [hred, if_neg (by simp [n5, n6, n9]), if_neg (by simp [n0, n1, n2, n3]),
      if_neg (by simp [n4, n8])]

/-- Witness for C2 on one code per leading-character class. -/
theorem c2_prefix_resolution_witness :
    resolve_code "600519" = "sh" ++ "600519" ∧
    resolve_code "000001" = "sz" ++ "000001" ∧
    resolve_code "430047" = "bj" ++ "430047" ∧
    resolve_code "A1" = "sh" ++ "A1" :=
  ⟨(c2_prefix_resolution '6' ['0', '0', '5', '1', '9'] (by decide) (by decide)
      (by decide) (by decide)).1 (by decide),
   (c2_prefix_resolution '0' ['0', '0', '0', '0', '1'] (by decide) (by decide)
      (by decide) (by decide)).2.1 (by decide),
   (c2_prefix_resolution '4' ['3', '0', '0', '4', '7'] (by decide) (by decide)
      (by decide) (by decide)).2.2.1 (by decide),
   (c2_prefix_resolution 'A' ['1'] (by decide) (by decide) (by decide)
      (by decide)).2.2.2 (by decide) (by decide) (by decide) (by decide)
      (by decide) (by decide) (by decide) (by decide) (by decide)⟩

/-- C3 counterexample: a mainland line that satisfies every premise of the
claim — no Hong-Kong marker, a key/value split with non-empty quote-stripped
value, exactly 6 comma-separated fields with fields 1 through 5 numeric —
yet produces no record, because the update-time fallback reads field index
30 and the resulting index error drops the line. -/
theorem c3_counterexample :
    parse_line [] "12:00" "a_sh600519=\"X,1,2,3,4,5\"" = none ∧
    contains_str "a_sh600519=\"X,1,2,3,4,5\"" "rt_hk" = false ∧
    py_split ","
        (py_strip_quotes ((py_split "=" "a_sh600519=\"X,1,2,3,4,5\"").getD 1 "")) =
      ["X", "1", "2", "3", "4", "5"] ∧
    (["1", "2", "3", "4", "5"].map py_float).all Option.isSome = true := by
  refine ⟨by decide, by decide, by decide, by decide⟩

/-- C3 amended: a mainland-dialect line whose fields 1 through 5 are numeric
yields a QuoteRecord with positional layout
`[name, open, prev_close, current, high, low, ...]` only when it has at
least 31 comma-separated fields (so that the update-time access cannot go
out of range); the update time comes from field index 31, falling back to
index 30 when the array is one field short.  Lines with 6 to 30 fields are
dropped by the index error in the fallback access. -/
theorem c3_a_share_layout (fields : List String) (o p cur hi lo : ℚ)
    (hlen : 31 ≤ fields.length)
    (h1 : py_float (fields.getD 1 "") = some o)
    (h2 : py_float (fields.getD 2 "") = some p)
    (h3 : py_float (fields.getD 3 "") = some cur)
    (h4 : py_float (fields.getD 4 "") = some hi)
    (h5 : py_float (fields.getD 5 "") = some lo) :
    parse_a_share_fields fields =
      some (fields.getD 0 "", o, p, cur, hi, lo,
        if 31 < fields.length then fields.getD 31 "" else fields.getD 30 "") :=
  parse_a_share_fields_eq fields o p cur hi lo hlen h1 h2 h3 h4 h5

/-- Witness for C3 on a concrete 31-field line (update time falls back to
field 30). -/
theorem c3_a_share_layout_witness :
    parse_a_share_fields (["N", "1", "2", "3", "4", "5"] ++ List.replicate 25 "t") =
      some (((["N", "1", "2", "3", "4", "5"] ++ List.replicate 25 "t").getD 0 ""),
        dec_val ⟨false, ['1'], []⟩, dec_val ⟨false, ['2'], []⟩,
        dec_val ⟨false, ['3'], []⟩, dec_val ⟨false, ['4'], []⟩,
        dec_val ⟨false, ['5'], []⟩,
        if 31 < (["N", "1", "2", "3", "4", "5"] ++ List.replicate 25 "t").length then
          (["N", "1", "2", "3", "4", "5"] ++ List.replicate 25 "t").getD 31 ""
        else
          (["N", "1", "2", "3", "4", "5"] ++ List.replicate 25 "t").getD 30 "") :=
  c3_a_share_layout _ _ _ _ _ _ (by decide)
    (py_float_parse_dec (by decide)) (py_float_parse_dec (by decide))
    (py_float_parse_dec (by decide)) (py_float_parse_dec (by decide))
    (py_float_parse_dec (by decide))

/-- C4: a line that fails to parse is silently dropped — in particular any
line without an `=` separator parses to `none` — and dropping such a line
leaves all remaining lines of the batch parsed exactly as before; the
per-line parser is a total function, so no exception can propagate to the
caller of `get_stock_data`. -/
theorem c4_line_isolation (cm : List (String × String)) (now : String)
    (ls1 ls2 : List String) (m : String) :
    ((py_split "=" m).length < 2 → parse_line cm now m = none) ∧
    (parse_line cm now m = none →
      parse_lines cm now (ls1 ++ m :: ls2) =
        parse_lines cm now ls1 ++ parse_lines cm now ls2) := by
  constructor
  · intro h
    unfold parse_line
    by_cases hs : py_strip m = ""
    · rw [if_pos hs]
    · rw [if_neg hs, if_pos h]
  · intro h
    simp [parse_lines, List.filterMap_append, List.filterMap_cons, h]

/-- Witness for C4: a separator-free line is dropped and does not disturb
the lines around it. -/
theorem c4_line_isolation_witness :
    parse_line [] "t" "garbage" = none ∧
    parse_lines [] "t" (["a_sh000001=\"I,1,2,3,4,5\""] ++ "garbage" :: ["x"]) =
      parse_lines [] "t" ["a_sh000001=\"I,1,2,3,4,5\""] ++ parse_lines [] "t" ["x"] :=
  ⟨(c4_line_isolation [] "t" [] [] "garbage").1 (by decide),
   (c4_line_isolation [] "t" ["a_sh000001=\"I,1,2,3,4,5\""] ["x"] "garbage").2
      (by decide)⟩

/-- C9: an empty input code list yields an empty result set and makes no
network call, whatever the network would have answered. -/
theorem c9_empty_codes (fetch : FetchOutcome) (now : String) :
    get_stock_data [] fetch now = ⟨[], [], []⟩ :=
  rfl

/-- C6: a Hong-Kong-dialect line with at least 7 comma-separated fields and
numeric fields 2 through 6 yields a record with positional layout
`[?, name, open, prev_close, high, low, current, ...]`, and its update time
comes from field index 18 when present, else from the current wall-clock
string. -/
theorem c6_hk_layout (now : String) (fields : List String) (o p hi lo cur : ℚ)
    (hlen : 7 ≤ fields.length)
    (h2 : py_float (fields.getD 2 "") = some o)
    (h3 : py_float (fields.getD 3 "") = some p)
    (h4 : py_float (fields.getD 4 "") = some hi)
    (h5 : py_float (fields.getD 5 "") = some lo)
    (h6 : py_float (fields.getD 6 "") = some cur) :
    parse_hk_fields now fields =
      some (fields.getD 1 "", o, p, cur, hi, lo,
        if 18 < fields.length then fields.getD 18 "" else now) :=
  parse_hk_fields_eq now fields o p hi lo cur hlen h2 h3 h4 h5 h6

/-- Witness for C6 on a 7-field Hong-Kong line whose update time falls back
to the wall clock. -/
theorem c6_hk_layout_witness :
    parse_hk_fields "09:30" ["E", "N", "1", "2", "3", "4", "5"] =
      some ((["E", "N", "1", "2", "3", "4", "5"].getD 1 ""),
        dec_val ⟨false, ['1'], []⟩, dec_val ⟨false, ['2'], []⟩,
        dec_val ⟨false, ['5'], []⟩, dec_val ⟨false, ['3'], []⟩,
        dec_val ⟨false, ['4'], []⟩,
        if 18 < (["E", "N", "1", "2", "3", "4", "5"] : List String).length then
          ["E", "N", "1", "2", "3", "4", "5"].getD 18 ""
        else
          "09:30") :=
  c6_hk_layout "09:30" _ _ _ _ _ _ (by decide)
    (py_float_parse_dec (by decide)) (py_float_parse_dec (by decide))
    (py_float_parse_dec (by decide)) (py_float_parse_dec (by decide))
    (py_float_parse_dec (by decide))

/-- C7 counterexample: a non-2xx response whose body decodes is not a
visible failure — `requests.get` raises no exception for it and the source
never checks the status — so the cycle yields no warning at all, where the
claim promises one.  (The empty body here parses to zero records.) -/
theorem c7_counterexample :
    (get_stock_data ["600519"] (.resp 404 (.ok "")) "t").warnings = [] ∧
    (get_stock_data ["600519"] (.resp 404 (.ok "")) "t").records = [] ∧
    (get_stock_data ["600519"] (.resp 404 (.ok "")) "t").urls.length = 1 :=
  ⟨by decide, by decide, by decide⟩

/-- C7 amended: when the single batched fetch raises (timeout, connection
failure) or the body fails to decode, `get_stock_data` shows exactly one
visible warning and returns an empty result set, having made exactly one
request — no retry, no partial-batch fallback; a non-2xx response with a
decodable body, however, is not surfaced as a failure and is parsed like any
other payload. -/
theorem c7_fetch_failure (codes : List String) (e now : String) (status : Nat)
    (h : codes ≠ []) :
    (get_stock_data codes (.exc e) now).records = [] ∧
    (get_stock_data codes (.exc e) now).warnings = ["网络请求失败: " ++ e] ∧
    (get_stock_data codes (.exc e) now).urls.length = 1 ∧
    (get_stock_data codes (.resp status (.error e)) now).records = [] ∧
    (get_stock_data codes (.resp status (.error e)) now).warnings = ["网络请求失败: " ++ e] ∧
    (get_stock_data codes (.resp status (.error e)) now).urls.length = 1 := by
  have hne : codes.isEmpty = false := by
    cases codes with
    | nil => exact absurd rfl h
    | cons a l => rfl
  simp [get_stock_data, hne]

/-- Witness for C7 on a one-code batch with a connection failure and a
decode failure. -/
theorem c7_fetch_failure_witness :
    (get_stock_data ["600519"] (.exc "boom") "t").records = [] ∧
    (get_stock_data ["600519"] (.exc "boom") "t").warnings = ["网络请求失败: " ++ "boom"] ∧
    (get_stock_data ["600519"] (.exc "boom") "t").urls.length = 1 ∧
    (get_stock_data ["600519"] (.resp 200 (.error "boom")) "t").records = [] ∧
    (get_stock_data ["600519"] (.resp 200 (.error "boom")) "t").warnings =
      ["网络请求失败: " ++ "boom"] ∧
    (get_stock_data ["600519"] (.resp 200 (.error "boom")) "t").urls.length = 1 :=
  c7_fetch_failure ["600519"] "boom" "t" 200 (by decide)

/-- C8 counterexample: the sidebar's add action checks only that the code is
non-empty and 6 characters long — a 6-character non-numeric code is
accepted, where the claim says only numeric codes are. -/
theorem c8_counterexample :
    add_code [] "abcdef" = ["abcdef"] ∧
    "abcdef".toList.all Char.isDigit = false :=
  ⟨by decide, by decide⟩

theorem add_code_nodup (wl : List String) (c : String) (h : wl.Nodup) :
    (add_code wl c).Nodup := by
  unfold add_code
  by_cases h1 : c ≠ "" ∧ c.length = 6
  · rw [if_pos h1]
    by_cases h2 : c ∈ wl
    · rw [if_neg (not_not_intro h2)]
      exact h
    · rw [if_pos h2]
      refine h.append (List.nodup_singleton c) ?_
      intro x hx hxc
      rw [List.mem_singleton] at hxc
      exact h2 (hxc ▸ hx)
  · rw [if_neg h1]
    exact h

theorem remove_codes_nodup (rs wl : List String) (h : wl.Nodup) :
    (remove_codes wl rs).Nodup := by
  induction rs generalizing wl with
  | nil => exact h
  | cons r rs ih =>
    show (remove_codes (if r ∈ wl then wl.erase r else wl) rs).Nodup
    refine ih _ ?_
    split_ifs with hm
    · exact h.erase r
    · exact h

theorem apply_watch_ops_nodup (ops : List WatchOp) (wl : List String)
    (h : wl.Nodup) : (apply_watch_ops wl ops).Nodup := by
  induction ops generalizing wl with
  | nil => exact h
  | cons op ops ih =>
    show (apply_watch_ops (apply_watch_op wl op) ops).Nodup
    refine ih _ ?_
    cases op with
    | add c => exact add_code_nodup wl c h
    | remove cs => exact remove_codes_nodup cs wl h

/-- C8 amended: the watchlist is mutated only by explicit add/remove; adding
accepts exactly the non-empty 6-character codes (the characters are not
checked for being numeric) and rejects a code already present, leaving the
list unchanged; removing a code not present is a no-op; and any sequence of
add/remove actions starting from a duplicate-free watchlist — in particular
from the initial empty one — keeps every code present at most once. -/
theorem c8_watchlist (wl : List String) (c r : String) (ops : List WatchOp) :
    (c ∈ wl → add_code wl c = wl) ∧
    (¬ (c ≠ "" ∧ c.length = 6) → add_code wl c = wl) ∧
    (c ≠ "" → c.length = 6 → c ∉ wl → add_code wl c = wl ++ [c]) ∧
    (r ∉ wl → remove_codes wl [r] = wl) ∧
    (wl.Nodup → (apply_watch_ops wl ops).Nodup) ∧
    (apply_watch_ops [] ops).Nodup := by
  refine ⟨?_, ?_, ?_, ?_, ?_, ?_⟩
  · intro h
    unfold add_code
    by_cases h1 : c ≠ "" ∧ c.length = 6
    · rw [if_pos h1, if_neg (not_not_intro h)]
    · rw [if_neg h1]
  · intro h
    rw [add_code, if_neg h]
  · intro h1 h2 h3
    rw [add_code, if_pos ⟨h1, h2⟩, if_pos h3]
  · intro h
    show (if r ∈ wl then wl.erase r else wl) = wl
    rw [if_neg h]
  · exact apply_watch_ops_nodup ops wl
  · exact apply_watch_ops_nodup ops [] List.nodup_nil

/-- Witness for C8: duplicate insert rejected, short code rejected, fresh
6-character code appended, removal of an absent code a no-op, and a
concrete action sequence leaving the list duplicate-free. -/
theorem c8_watchlist_witness :
    add_code ["600519"] "600519" = ["600519"] ∧
    add_code [] "12345" = [] ∧
    add_code [] "600519" = [] ++ ["600519"] ∧
    remove_codes ["600519"] ["000001"] = ["600519"] ∧
    (apply_watch_ops [] [.add "600519", .add "600519", .remove ["000001"]]).Nodup :=
  ⟨(c8_watchlist ["600519"] "600519" "x" []).1 (by decide),
   (c8_watchlist [] "12345" "x" []).2.1 (by decide),
   (c8_watchlist [] "600519" "x" []).2.2.1 (by decide) (by decide) (by decide),
   (c8_watchlist ["600519"] "x" "000001" []).2.2.2.1 (by decide),
   (c8_watchlist [] "x" "x" [.add "600519", .add "600519", .remove ["000001"]]).2.2.2.2.2⟩

/-- C5 counterexample: submitting the explicit-prefixed code `rt_hkHSTECH`
and parsing its response line yields a record whose displayed code is the
cosmetic relabel `HK.Tech`, not the original submitted string. -/
theorem c5_counterexample :
    ((get_stock_data ["rt_hkHSTECH"]
        (.resp 200 (.ok "a_rt_hkHSTECH=\"A,B,1,2,3,4,5\"")) "10:00").records.map
      fun r => r.code) = ["HK.Tech"] ∧
    ("HK.Tech" : String) ≠ "rt_hkHSTECH" := by
  constructor
  · have hfields :
        py_split ","
            (py_strip_quotes
              ((py_split "=" "a_rt_hkHSTECH=\"A,B,1,2,3,4,5\"").getD 1 "")) =
          ["A", "B", "1", "2", "3", "4", "5"] := by decide
    have h4 :
        (if contains_str "a_rt_hkHSTECH=\"A,B,1,2,3,4,5\"" "rt_hk" then
          parse_hk_fields "10:00"
            (py_split ","
              (py_strip_quotes
                ((py_split "=" "a_rt_hkHSTECH=\"A,B,1,2,3,4,5\"").getD 1 "")))
        else
          parse_a_share_fields
            (py_split ","
              (py_strip_quotes
                ((py_split "=" "a_rt_hkHSTECH=\"A,B,1,2,3,4,5\"").getD 1 "")))) =
          some ("B", dec_val ⟨false, ['1'], []⟩, dec_val ⟨false, ['2'], []⟩,
            dec_val ⟨false, ['5'], []⟩, dec_val ⟨false, ['3'], []⟩,
            dec_val ⟨false, ['4'], []⟩, "10:00") := by
      rw [if_pos (show contains_str "a_rt_hkHSTECH=\"A,B,1,2,3,4,5\"" "rt_hk" = true
            from by decide), hfields]
      exact parse_hk_fields_eq "10:00" ["A", "B", "1", "2", "3", "4", "5"]
        (dec_val ⟨false, ['1'], []⟩) (dec_val ⟨false, ['2'], []⟩)
        (dec_val ⟨false, ['3'], []⟩) (dec_val ⟨false, ['4'], []⟩)
        (dec_val ⟨false, ['5'], []⟩) (by decide)
        (py_float_parse_dec (by decide)) (py_float_parse_dec (by decide))
        (py_float_parse_dec (by decide)) (py_float_parse_dec (by decide))
        (py_float_parse_dec (by decide))
    have hline := parse_line_eq [("rt_hkHSTECH", "rt_hkHSTECH")] "10:00"
      "a_rt_hkHSTECH=\"A,B,1,2,3,4,5\"" "B" (dec_val ⟨false, ['1'], []⟩)
      (dec_val ⟨false, ['2'], []⟩) (dec_val ⟨false, ['5'], []⟩)
      (dec_val ⟨false, ['3'], []⟩) (dec_val ⟨false, ['4'], []⟩) "10:00"
      (by decide) (by decide) (by decide) h4
    unfold get_stock_data
    rw [if_neg (show ¬ (["rt_hkHSTECH"] : List String).isEmpty = true from by decide)]
    dsimp only
    rw [show build_codes ["rt_hkHSTECH"] =
          (["rt_hkHSTECH"], [("rt_hkHSTECH", "rt_hkHSTECH")]) from by decide,
      show py_split "\n" "a_rt_hkHSTECH=\"A,B,1,2,3,4,5\"" =
          ["a_rt_hkHSTECH=\"A,B,1,2,3,4,5\""] from by decide]
    dsimp only
    rw [parse_lines, List.filterMap_cons]
    rw [hline]
    dsimp only [List.filterMap_nil, List.map_cons, List.map_nil]
    decide
  · decide

/-- C5 amended: a code submitted with an explicit market prefix passes
through the resolver unchanged, and the displayed code recovers the
original submitted string exactly whenever the reverse map still sends the
resolved code to that original (no later duplicate overwrote the entry) and
the original does not contain `HSTECH`; an original containing `HSTECH` is
instead relabeled `HK.Tech`. -/
theorem c5_round_trip (code : String) (cm : List (String × String))
    (k orig : String)
    (hpre : py_startswith code "sh" = true ∨ py_startswith code "sz" = true ∨
      py_startswith code "bj" = true ∨ py_startswith code "rt_hk" = true)
    (hget : dictGet cm k = some orig)
    (hns : contains_str orig "HSTECH" = false) :
    resolve_code code = code ∧ recover_code cm k = orig := by
  constructor
  · rw [resolve_code, if_pos (by rcases hpre with h | h | h | h <;> simp [h])]
  · unfold recover_code
    rw [hget]
    dsimp only [Option.getD_some]
    rw [if_neg (by simp [hns])]

/-- Witness for C5 on `sh600519` submitted explicitly and recovered from
the map it induces. -/
theorem c5_round_trip_witness :
    resolve_code "sh600519" = "sh600519" ∧
    recover_code [("sh600519", "sh600519")] "sh600519" = "sh600519" :=
  c5_round_trip "sh600519" [("sh600519", "sh600519")] "sh600519" "sh600519"
    (Or.inl (by decide)) (by decide) (by decide)

theorem build_codes_concat (cs : List String) (c : String) :
    build_codes (cs ++ [c]) =
      if py_strip c = "" then build_codes cs
      else ((build_codes cs).1 ++ [resolve_code (py_strip c)],
        (build_codes cs).2 ++ [(resolve_code (py_strip c), py_strip c)]) := by
  unfold build_codes
  rw [List.foldl_append]
  rfl

theorem dictGet_append_last (m : List (String × String)) (k v : String) :
    dictGet (m ++ [(k, v)]) k = some v := by
  unfold dictGet
  rw [List.filter_append,
    show List.filter (fun p => p.1 == k) [(k, v)] = [(k, v)] from by simp,
    List.getLast?_concat]
  rfl

/-- C10: when a later submitted code resolves to the same prefixed API code
as earlier ones, the resolved code is still appended to the request list
(requested once per occurrence), but the resolved-to-original reverse map
keeps only the last-entered original string, so a record keyed by that
resolved code displays the later submitted form (absent the cosmetic HSTECH
relabel). -/
theorem c10_duplicate_resolution (cs : List String) (c k : String)
    (hne : py_strip c ≠ "") (hres : resolve_code (py_strip c) = k) :
    (build_codes (cs ++ [c])).1 = (build_codes cs).1 ++ [k] ∧
    dictGet (build_codes (cs ++ [c])).2 k = some (py_strip c) ∧
    (contains_str (py_strip c) "HSTECH" = false →
      recover_code (build_codes (cs ++ [c])).2 k = py_strip c) := by
  have hb := build_codes_concat cs c
  rw [if_neg hne, hres] at hb
  refine ⟨?_, ?_, ?_⟩
  · rw [hb]
  · rw [hb]
    exact dictGet_append_last _ _ _
  · intro h
    unfold recover_code
    rw [hb]
    dsimp only
    rw [dictGet_append_last]
    dsimp only [Option.getD_some]
    rw [if_neg (by simp [h])]

/-- Witness for C10: `600519` then `sh600519` in one batch; both occurrences
are requested, and the displayed original for `sh600519` is the later form. -/
theorem c10_duplicate_resolution_witness :
    (build_codes (["600519"] ++ ["sh600519"])).1 =
      (build_codes ["600519"]).1 ++ ["sh600519"] ∧
    dictGet (build_codes (["600519"] ++ ["sh600519"])).2 "sh600519" =
      some (py_strip "sh600519") ∧
    recover_code (build_codes (["600519"] ++ ["sh600519"])).2 "sh600519" =
      py_strip "sh600519" :=
  ⟨(c10_duplicate_resolution ["600519"] "sh600519" "sh600519" (by decide) (by decide)).1,
   (c10_duplicate_resolution ["600519"] "sh600519" "sh600519" (by decide) (by decide)).2.1,
   (c10_duplicate_resolution ["600519"] "sh600519" "sh600519" (by decide) (by decide)).2.2
     (by decide)⟩

end StockView
